import Mathlib

/-!
# BookSwap backend — shallow embedding

A shallow embedding of the BookSwap REST backend (`userRoutes.js`,
`bookRoutes.js`, `cloudinary.js`, server bootstrap).  The MongoDB document
store is modelled as in-memory lists of documents; the atomic single-document
operations used by the routes (`findOne`, `updateOne`, `findOneAndUpdate`,
`deleteOne`) act on the first matching document of the list, as the single-document
operations of MongoDB do.  External libraries (bcrypt, jsonwebtoken,
validator.js, cloudinary) are modelled by their documented contracts; bcrypt
is kept abstract as a pair of `hash`/`compare` functions so that theorems can
state exactly which contract facts they use.
-/

namespace BookSwap

/-- Millisecond timestamps, as produced by the JavaScript Date type. -/
abbrev Time := Nat

abbrev UserId := Nat
abbrev BookId := Nat

/-- A stored user document, with the fields inserted by the register route in
`userRoutes.js` (lines 135–144). -/
structure User where
  _id : UserId
  username : String
  email : String
  /-- The stored password hash (the register route stores the bcrypt hash). -/
  password : String
  joinDate : Time
  lastLogin : Option Time
  loginAttempts : Nat
  lastFailedLogin : Option Time
  isActive : Bool
  role : String
  profile : List (String × String)
  deriving Repr, DecidableEq

/-- Contact subdocument of a book listing. -/
structure Contact where
  app : String
  id : String
  deriving Repr, DecidableEq

/-- Image subdocument: public URL plus the Cloudinary deletion handle. -/
structure Image where
  url : String
  public_id : String
  deriving Repr, DecidableEq

/-- A stored book listing document, as inserted by the create route
(bookRoutes.js lines 34-52). -/
structure Book where
  _id : BookId
  title : String
  author : String
  genre : String
  condition : String
  description : String
  contact : Contact
  userId : UserId
  createdAt : Time
  likes : Nat
  image : Image
  deriving Repr, DecidableEq

/-- The two MongoDB collections used by the routes (`users` and `books`),
plus counters supplying fresh `_id`s for `insertOne`. -/
structure AppState where
  users : List User
  books : List Book
  nextUserId : UserId
  nextBookId : BookId
  deriving Repr, DecidableEq

/-! ## MongoDB single-document primitives on lists -/

/-- MongoDB findOneAndUpdate returning the post-update document: update the
first document matching `p` by `f`, returning the updated document (or
`none`) together with the updated collection. -/
def findOneAndUpdate (p : α → Bool) (f : α → α) : List α → Option α × List α
  | [] => (none, [])
  | x :: xs =>
    if p x then (some (f x), f x :: xs)
    else
      let r := findOneAndUpdate p f xs
      (r.1, x :: r.2)

/-- MongoDB updateOne: update the first document matching `p` by `f`. -/
def updateFirst (p : α → Bool) (f : α → α) (l : List α) : List α :=
  (findOneAndUpdate p f l).2

/-- MongoDB deleteOne: remove the first document matching `p`, returning the
deleted count together with the remaining collection. -/
def deleteFirst (p : α → Bool) : List α → Nat × List α
  | [] => (0, [])
  | x :: xs =>
    if p x then (1, xs)
    else
      let r := deleteFirst p xs
      (r.1, x :: r.2)

/-! ## External library models -/

/-- Model of the jsonwebtoken payload produced by
`jwt.sign({ id }, JWT_SECRET, { expiresIn })`: the signed user id, the signing
secret (standing for the signature), and the expiry instant. -/
structure Token where
  id : UserId
  secret : String
  exp : Time
  deriving Repr, DecidableEq

/-- Source function generateToken, userRoutes.js line 35: wraps jwt.sign over
the payload holding the user id, the secret, and the configured expiry. -/
def generateToken (secret : String) (expiresInMs : Time) (now : Time)
    (userId : UserId) : Token :=
  { id := userId, secret := secret, exp := now + expiresInMs }

/-- Model of jwt.verify: succeeds with the embedded id exactly when the
signature matches the secret and the token is unexpired. -/
def jwtVerify (secret : String) (now : Time) (t : Token) : Option UserId :=
  if t.secret == secret && decide (now < t.exp) then some t.id else none

/-- Model of the bcrypt library: a salted hash function (taking the cost
factor) and the corresponding comparison. -/
structure Bcrypt where
  hash : String → Nat → String
  compare : String → String → Bool

/-- Source function sanitizeInput, userRoutes.js line 36: mongo-sanitize
strips dollar-operator keys from objects and returns non-object values — in
particular all strings — unchanged. -/
def sanitizeInput (s : String) : String := s

/-! ## Validation (`registerSchema`, `userRoutes.js` lines 77–86)

The `express-validator` chains call into validator.js; the character-class
checks below transcribe the regular expressions from the source. -/

/-- JavaScript string trim, removing whitespace from both ends (implemented
over the character list so that it evaluates inside the kernel). -/
def jsTrim (s : String) : String :=
  ⟨((s.data.dropWhile Char.isWhitespace).reverse.dropWhile
      Char.isWhitespace).reverse⟩

/-- JavaScript lower-casing of a string, on the character list. -/
def jsToLower (s : String) : String := ⟨s.data.map Char.toLower⟩

/-- Split a character list at every occurrence of `c` (the parts, in order,
with the separators removed). -/
def splitOnChar (c : Char) : List Char → List (List Char)
  | [] => [[]]
  | x :: xs =>
    match splitOnChar c xs with
    | [] => []
    | h :: t => if x == c then [] :: h :: t else (x :: h) :: t

/-- Character class of the username regular expression: ASCII letters,
digits and underscore. -/
def usernameChar (c : Char) : Bool := c.isAlpha || c.isDigit || c == '_'

/-- Username validator: trimmed length between 3 and 30 and every character
in the username character class (registerSchema, userRoutes.js lines 78-81). -/
def validUsername (u : String) : Bool :=
  3 ≤ u.length && u.length ≤ 30 && u.toList.all usernameChar

/-- Models the external validator.js `isEmail` check, simplified to: exactly
one `@`, a nonempty local part, and a domain containing a dot. -/
def isEmailModel (e : String) : Bool :=
  match splitOnChar '@' e.data with
  | [lp, dom] => !lp.isEmpty && !dom.isEmpty && dom.contains '.'
  | _ => false

/-- Models the external validator.js `normalizeEmail` sanitizer by its core
documented effect: lower-casing the address. -/
def normalizeEmailModel (e : String) : String := jsToLower e

/-- Character class of the password regular expression: ASCII letters, digits
and the seven listed special characters. -/
def passwordAllowedChar (c : Char) : Bool :=
  c.isAlpha || c.isDigit || "@$!%*?&".toList.contains c

/-- Password validator (registerSchema, userRoutes.js lines 83-85): at least
8 characters, at least one lowercase letter, one uppercase letter and one
digit, and — by the anchored regular expression — every character drawn from
the password character class. -/
def validPassword (p : String) : Bool :=
  8 ≤ p.length &&
  p.toList.any Char.isLower &&
  p.toList.any Char.isUpper &&
  p.toList.any Char.isDigit &&
  p.toList.all passwordAllowedChar

/-- The raw JSON body of a registration request. -/
structure RegisterBody where
  username : String
  email : String
  password : String
  deriving Repr, DecidableEq

/-- Runs the registerSchema validation chain: trims username and email,
normalizes the email, and checks the three field validators; returns the
sanitized body the handler will see, or `none` (→ 400 VALIDATION_ERROR). -/
def validateRegister (raw : RegisterBody) : Option RegisterBody :=
  let u := jsTrim raw.username
  let e := jsTrim raw.email
  if validUsername u && isEmailModel e && validPassword raw.password then
    some { username := u, email := normalizeEmailModel e, password := raw.password }
  else none

/-! ## Responses -/

/-- The JSON responses of the account routes, with the fields the handlers
put in their bodies (the lockout message — Account locked, try again in N
minutes — is carried as its computed minute count `remainingMinutes`). -/
structure AuthResponse where
  status : Nat
  success : Bool
  code : Option String
  remainingMinutes : Option Int
  userId : Option UserId
  username : Option String
  email : Option String
  role : Option String
  token : Option Token
  deriving Repr, DecidableEq

/-- An error response body carrying success false and the given error code,
with the given HTTP status. -/
def authError (status : Nat) (code : String) : AuthResponse :=
  { status := status, success := false, code := some code,
    remainingMinutes := none, userId := none, username := none,
    email := none, role := none, token := none }

/-- The JSON responses of the book routes. -/
structure BookResponse where
  status : Nat
  success : Bool
  code : Option String
  data : Option Book
  deriving Repr, DecidableEq

/-- The 404 body (success false, error message Book not found or access
denied, code NOT_FOUND) shared by the owner-scoped update and delete
routes. -/
def bookNotFound : BookResponse :=
  { status := 404, success := false, code := some "NOT_FOUND", data := none }

/-! ## Account routes (`userRoutes.js`) -/

def MAX_LOGIN_ATTEMPTS : Nat := 5

def LOGIN_WINDOW_MINUTES : Nat := 15

/-- The lockout window in milliseconds: LOGIN_WINDOW_MINUTES minutes. -/
def LOGIN_WINDOW_MS : Int := 15 * 60 * 1000

/-- JavaScript ceiling of the quotient `a / b` for an integer numerator and a
positive integer divisor. -/
def jsMathCeilDiv (a b : Int) : Int := -((-a).ediv b)

/-- Register handler, POST /api/users (userRoutes.js lines 110-166), after
validation: findOne with an or-query on username and email answers 409
USER_EXISTS on a hit; otherwise the handler hashes the password, inserts the
new user document and answers 201 with a signed token. -/
def registerUser (bc : Bcrypt) (saltRounds : Nat) (secret : String)
    (expiresInMs now : Time) (s : AppState) (inp : RegisterBody) :
    AuthResponse × AppState :=
  match s.users.find? (fun u => u.username == inp.username || u.email == inp.email) with
  | some _ => (authError 409 "USER_EXISTS", s)
  | none =>
    let user : User :=
      { _id := s.nextUserId, username := inp.username, email := inp.email,
        password := bc.hash inp.password saltRounds, joinDate := now,
        lastLogin := none, loginAttempts := 0, lastFailedLogin := none,
        isActive := true, role := "user", profile := [] }
    let tok := generateToken secret expiresInMs now user._id
    ({ status := 201, success := true, code := none, remainingMinutes := none,
       userId := some user._id, username := some user.username,
       email := some user.email, role := none, token := some tok },
     { s with users := s.users ++ [user], nextUserId := s.nextUserId + 1 })

/-- The full register route: the registerSchema validation middleware, then
the handler. -/
def registerRoute (bc : Bcrypt) (saltRounds : Nat) (secret : String)
    (expiresInMs now : Time) (s : AppState) (raw : RegisterBody) :
    AuthResponse × AppState :=
  match validateRegister raw with
  | none => (authError 400 "VALIDATION_ERROR", s)
  | some inp => registerUser bc saltRounds secret expiresInMs now s inp

/-- The password-comparison phase of the login handler (userRoutes.js lines
194-232), reached once the lockout gate has been passed.  On mismatch,
updateOne increments loginAttempts and stamps lastFailedLogin, answering 401
INVALID_CREDENTIALS; on match, updateOne resets loginAttempts to 0 and stamps
lastLogin, answering 200 with a fresh token. -/
def loginPasswordPhase (bc : Bcrypt) (secret : String) (expiresInMs now : Time)
    (s : AppState) (user : User) (password : String) :
    AuthResponse × AppState :=
  if bc.compare password user.password then
    let tok := generateToken secret expiresInMs now user._id
    ({ status := 200, success := true, code := none, remainingMinutes := none,
       userId := some user._id, username := some user.username,
       email := some user.email, role := some user.role, token := some tok },
     { s with users := (updateFirst (fun u => u._id == user._id)
         (fun u => { u with loginAttempts := 0, lastLogin := some now }) s.users) })
  else
    (authError 401 "INVALID_CREDENTIALS",
     { s with users := (updateFirst (fun u => u._id == user._id)
         (fun u => { u with loginAttempts := u.loginAttempts + 1,
                            lastFailedLogin := some now }) s.users) })

/-- Login handler, POST /api/users/login (userRoutes.js lines 168-240), after
validation: look up by email (absent → 401 INVALID_CREDENTIALS, stores
untouched); if loginAttempts is at least MAX_LOGIN_ATTEMPTS and fewer than
LOGIN_WINDOW_MINUTES minutes elapsed since lastFailedLogin (which defaults to
now when null), answer 429 ACCOUNT_LOCKED with the ceiling of the remaining
minutes; otherwise fall through to the password comparison. -/
def loginUser (bc : Bcrypt) (secret : String) (expiresInMs now : Time)
    (s : AppState) (email password : String) : AuthResponse × AppState :=
  match s.users.find? (fun u => u.email == email) with
  | none => (authError 401 "INVALID_CREDENTIALS", s)
  | some user =>
    let lastFailed : Time := user.lastFailedLogin.getD now
    let deltaMs : Int := (now : Int) - (lastFailed : Int)
    if MAX_LOGIN_ATTEMPTS ≤ user.loginAttempts ∧ deltaMs < LOGIN_WINDOW_MS then
      ({ authError 429 "ACCOUNT_LOCKED" with
          remainingMinutes := some (jsMathCeilDiv (LOGIN_WINDOW_MS - deltaMs) 60000) }, s)
    else
      loginPasswordPhase bc secret expiresInMs now s user password

/-- Source middleware authenticateUser (userRoutes.js lines 38-62): extract
the bearer token, verify it, and resolve findOne on the decoded id with the
active flag required; any failure yields 401 NOT_AUTHORIZED (none here). -/
def authenticateUser (secret : String) (now : Time) (s : AppState)
    (tok : Option Token) : Option User :=
  match tok with
  | none => none
  | some t =>
    match jwtVerify secret now t with
    | none => none
    | some uid => s.users.find? (fun u => u._id == uid && u.isActive)

/-- Handler of GET /api/users/me (userRoutes.js lines 242-254): echo the
public fields of the authenticated user. -/
def getMe (user : User) : AuthResponse :=
  { status := 200, success := true, code := none, remainingMinutes := none,
    userId := some user._id, username := some user.username,
    email := some user.email, role := some user.role, token := none }

/-- Handler of DELETE /api/users/me (userRoutes.js lines 390-418): deleteOne
by id on the users collection only; 404 USER_NOT_FOUND when deletedCount
is 0. -/
def deleteMe (s : AppState) (user : User) : AuthResponse × AppState :=
  let r := deleteFirst (fun u => u._id == user._id) s.users
  if r.1 == 0 then
    (authError 404 "USER_NOT_FOUND", { s with users := r.2 })
  else
    ({ status := 200, success := true, code := none, remainingMinutes := none,
       userId := none, username := none, email := none, role := none,
       token := none }, { s with users := r.2 })

/-! ## Book routes (`bookRoutes.js`) -/

/-- Handler of GET /api/books (bookRoutes.js lines 66-79): all listings
sorted by createdAt descending. -/
def listAllBooks (s : AppState) : List Book :=
  s.books.mergeSort (fun a b => b.createdAt ≤ a.createdAt)

/-- Handler of PUT /api/books/my-books/:bookId (bookRoutes.js lines 102-134):
findOneAndUpdate filtered on both the book id and the caller id, applying the
dynamic set-patch; a null result (absent id or foreign owner alike) answers
404 NOT_FOUND.  The dynamic patch is modelled as a function on the matched
document. -/
def updateBook (s : AppState) (callerId : UserId) (bookId : BookId)
    (patch : Book → Book) : BookResponse × AppState :=
  let r := findOneAndUpdate (fun b => b._id == bookId && b.userId == callerId)
    patch s.books
  match r.1 with
  | none => (bookNotFound, { s with books := r.2 })
  | some b => ({ status := 200, success := true, code := none, data := some b },
      { s with books := r.2 })

/-- Handler of DELETE /api/books/my-books/:bookId (bookRoutes.js lines
137-169): findOne on book id and caller id (miss → 404 NOT_FOUND); then a
best-effort Cloudinary destroy whose failure is logged and swallowed (cloudOk
is the outcome of the remote call, the third result component the console
log); then deleteOne on the same filter with a 404 guard on a zero
deletedCount. -/
def deleteBook (s : AppState) (callerId : UserId) (bookId : BookId)
    (cloudOk : Bool) : BookResponse × AppState × List String :=
  match s.books.find? (fun b => b._id == bookId && b.userId == callerId) with
  | none => (bookNotFound, s, [])
  | some book =>
    let log : List String :=
      if book.image.public_id ≠ "" && !cloudOk then
        ["Error deleting image from Cloudinary:"]
      else []
    let r := deleteFirst (fun b => b._id == bookId && b.userId == callerId) s.books
    if r.1 == 0 then
      (bookNotFound, { s with books := r.2 }, log)
    else
      ({ status := 200, success := true, code := none, data := none },
       { s with books := r.2 }, log)

/-- Handler of PUT /api/books/like/:bookId (bookRoutes.js lines 172-197): no
authentication middleware; findOneAndUpdate filtered on the book id alone,
incrementing the like counter by one; a null result answers 404. -/
def likeBook (s : AppState) (bookId : BookId) : BookResponse × AppState :=
  let r := findOneAndUpdate (fun b => b._id == bookId)
    (fun b => { b with likes := b.likes + 1 }) s.books
  match r.1 with
  | none => (bookNotFound, { s with books := r.2 })
  | some b => ({ status := 200, success := true, code := none, data := some b },
      { s with books := r.2 })

/-! ## Concrete fixtures used by the witness and counterexample theorems -/

/-- A concrete bcrypt instantiation for witnesses: tags the plaintext with the
cost factor, and compares accordingly for cost factor 12. -/
def testBc : Bcrypt :=
  { hash := fun p r => "h" ++ toString r ++ ":" ++ p,
    compare := fun p h => h == "h12:" ++ p }

/-- The store with no documents. -/
def emptyState : AppState :=
  { users := [], books := [], nextUserId := 1, nextBookId := 1 }

/-- The valid registration body from the specification example. -/
def rawAlice : RegisterBody :=
  { username := "alice123", email := "a@b.com", password := "Abcdef12" }

/-- A second valid registration body reusing the email of `rawAlice`. -/
def rawBob : RegisterBody :=
  { username := "bobby99", email := "a@b.com", password := "Zyxwvu21" }

/-- A stored user with five failed logins, the last at time 0. -/
def carol : User :=
  { _id := 7, username := "carol", email := "c@x.com",
    password := "h12:Pw1234aA", joinDate := 0, lastLogin := none,
    loginAttempts := 5, lastFailedLogin := some 0, isActive := true,
    role := "user", profile := [] }

/-- A listing owned by `carol`. -/
def book1 : Book :=
  { _id := 1, title := "T", author := "A", genre := "G", condition := "C",
    description := "D", contact := { app := "tg", id := "x" }, userId := 7,
    createdAt := 5, likes := 0, image := { url := "u", public_id := "pid" } }

/-- A store holding `carol` and her listing `book1`. -/
def stB : AppState :=
  { users := [carol], books := [book1], nextUserId := 8, nextBookId := 2 }

/-! ## General lemmas about the list-level MongoDB primitives -/

theorem findOneAndUpdate_eq_none (p : α → Bool) (f : α → α) (l : List α)
    (h : ∀ x ∈ l, p x = false) : findOneAndUpdate p f l = (none, l) := by
  induction l with
  | nil => rfl
  | cons x xs ih =>
    have hx := h x (List.mem_cons_self x xs)
    simp [findOneAndUpdate, hx,
      ih fun y hy => h y (List.mem_cons_of_mem _ hy)]

theorem findOneAndUpdate_append (p : α → Bool) (f : α → α) (l1 : List α)
    (b : α) (l2 : List α) (h1 : ∀ x ∈ l1, p x = false) (hb : p b = true) :
    findOneAndUpdate p f (l1 ++ b :: l2) = (some (f b), l1 ++ f b :: l2) := by
  induction l1 with
  | nil => simp [findOneAndUpdate, hb]
  | cons x xs ih =>
    have hx := h1 x (List.mem_cons_self x xs)
    simp [findOneAndUpdate, hx,
      ih fun y hy => h1 y (List.mem_cons_of_mem _ hy)]

theorem deleteFirst_append (p : α → Bool) (l1 : List α) (b : α) (l2 : List α)
    (h1 : ∀ x ∈ l1, p x = false) (hb : p b = true) :
    deleteFirst p (l1 ++ b :: l2) = (1, l1 ++ l2) := by
  induction l1 with
  | nil => simp [deleteFirst, hb]
  | cons x xs ih =>
    have hx := h1 x (List.mem_cons_self x xs)
    simp [deleteFirst, hx,
      ih fun y hy => h1 y (List.mem_cons_of_mem _ hy)]

theorem find?_decomp {p : α → Bool} {l : List α} {x : α}
    (h : l.find? p = some x) :
    ∃ l1 l2, l = l1 ++ x :: l2 ∧ (∀ y ∈ l1, p y = false) ∧ p x = true := by
  rw [List.find?_eq_some] at h
  obtain ⟨hx, l1, l2, rfl, hpre⟩ := h
  exact ⟨l1, l2, rfl, fun y hy => by simpa using hpre y hy, hx⟩

theorem updateFirst_decomp {p : α → Bool} (f : α → α) {l : List α} {x : α}
    (h : l.find? p = some x) :
    ∃ l1 l2, l = l1 ++ x :: l2 ∧ (∀ y ∈ l1, p y = false) ∧ p x = true ∧
      updateFirst p f l = l1 ++ f x :: l2 := by
  obtain ⟨l1, l2, rfl, hpre, hx⟩ := find?_decomp h
  refine ⟨l1, l2, rfl, hpre, hx, ?_⟩
  simp [updateFirst, findOneAndUpdate_append _ _ _ _ _ hpre hx]

theorem find?_exists_of_mem {p : α → Bool} {l : List α} {x : α} (hm : x ∈ l)
    (hx : p x = true) : ∃ y, l.find? p = some y := by
  cases hf : l.find? p with
  | some y => exact ⟨y, rfl⟩
  | none =>
    rw [List.find?_eq_none] at hf
    exact absurd hx (by simpa using hf x hm)

/-! ## Login helper lemmas -/

theorem jsMathCeilDiv_pos {a : Int} (ha : 0 < a) {b : Int} (hb : 0 < b) :
    1 ≤ jsMathCeilDiv a b := by
  have h1 : (-a).ediv b < 0 := Int.ediv_neg' (by omega) hb
  simp only [jsMathCeilDiv]
  omega

theorem loginUser_not_locked (bc : Bcrypt) (secret : String)
    (expiresInMs now : Time) (s : AppState) (email password : String) (u : User)
    (hfind : s.users.find? (fun x => x.email == email) = some u)
    (hnl : ¬(MAX_LOGIN_ATTEMPTS ≤ u.loginAttempts ∧
        (now : Int) - ((u.lastFailedLogin.getD now : Nat) : Int) < LOGIN_WINDOW_MS)) :
    loginUser bc secret expiresInMs now s email password =
      loginPasswordPhase bc secret expiresInMs now s u password := by
  simp only [loginUser, hfind]
  rw [if_neg hnl]

theorem loginPasswordPhase_match (bc : Bcrypt) (secret : String)
    (expiresInMs now : Time) (s : AppState) (u : User) (password : String)
    (hcmp : bc.compare password u.password = true) :
    loginPasswordPhase bc secret expiresInMs now s u password =
      ({ status := 200, success := true, code := none, remainingMinutes := none,
         userId := some u._id, username := some u.username,
         email := some u.email, role := some u.role,
         token := some (generateToken secret expiresInMs now u._id) },
       { s with users := (updateFirst (fun x => x._id == u._id)
           (fun x => { x with loginAttempts := 0, lastLogin := some now })
           s.users) }) := by
  simp [loginPasswordPhase, hcmp]

theorem loginPasswordPhase_mismatch (bc : Bcrypt) (secret : String)
    (expiresInMs now : Time) (s : AppState) (u : User) (password : String)
    (hcmp : bc.compare password u.password = false) :
    loginPasswordPhase bc secret expiresInMs now s u password =
      (authError 401 "INVALID_CREDENTIALS",
       { s with users := (updateFirst (fun x => x._id == u._id)
           (fun x => { x with loginAttempts := x.loginAttempts + 1,
                              lastFailedLogin := some now }) s.users) }) := by
  simp [loginPasswordPhase, hcmp]

/-! ## Claim theorems -/

/-- C9: the lockout check runs before the password comparison, so a locked
account (five or more failed attempts, last failure within the 15-minute
window) receives 429 ACCOUNT_LOCKED even for a correct password, and the
store is not mutated by the attempt. -/
theorem lockout_precedes_password_spec (bc : Bcrypt) (secret : String)
    (expiresInMs now : Time) (s : AppState) (email password : String)
    (u : User) (t : Time)
    (hfind : s.users.find? (fun x => x.email == email) = some u)
    (h5 : MAX_LOGIN_ATTEMPTS ≤ u.loginAttempts)
    (hlf : u.lastFailedLogin = some t)
    (hwin : (now : Int) - (t : Int) < LOGIN_WINDOW_MS)
    (hcmp : bc.compare password u.password = true) :
    (loginUser bc secret expiresInMs now s email password).1.status = 429 ∧
    (loginUser bc secret expiresInMs now s email password).1.code =
      some "ACCOUNT_LOCKED" ∧
    (loginUser bc secret expiresInMs now s email password).2 = s := by
  simp only [loginUser, hfind, hlf, Option.getD_some]
  rw [if_pos ⟨h5, hwin⟩]
  exact ⟨rfl, rfl, rfl⟩

/-- Witness for C9: with the correct password one minute after the fifth
failure, the attempt is still answered 429 ACCOUNT_LOCKED and the store is
unchanged. -/
theorem lockout_precedes_password_witness :
    (loginUser testBc "sec" 604800000 60000 stB "c@x.com" "Pw1234aA").1.status = 429 ∧
    (loginUser testBc "sec" 604800000 60000 stB "c@x.com" "Pw1234aA").1.code =
      some "ACCOUNT_LOCKED" ∧
    (loginUser testBc "sec" 604800000 60000 stB "c@x.com" "Pw1234aA").2 = stB :=
  lockout_precedes_password_spec testBc "sec" 604800000 60000 stB "c@x.com"
    "Pw1234aA" carol 0 (by decide) (by decide) rfl (by decide) (by decide)

/-- C1: with the account found by email, (a) a failed-login counter of at
least 5 with the last failure under 15 minutes old answers 429 ACCOUNT_LOCKED
carrying a positive remaining-minutes count and leaves the store unchanged;
(b) once 15 minutes have elapsed the attempt falls through to the password
check; (c) a successful (unlocked) login answers 200 and rewrites the stored
record with the failed-login counter reset to 0. -/
theorem login_lockout_spec (bc : Bcrypt) (secret : String)
    (expiresInMs now : Time) (s : AppState) (email password : String)
    (u : User)
    (hfind : s.users.find? (fun x => x.email == email) = some u) :
    (∀ t : Time, u.lastFailedLogin = some t →
      MAX_LOGIN_ATTEMPTS ≤ u.loginAttempts → t ≤ now →
      (now : Int) - (t : Int) < LOGIN_WINDOW_MS →
      loginUser bc secret expiresInMs now s email password =
        ({ authError 429 "ACCOUNT_LOCKED" with
            remainingMinutes := some (jsMathCeilDiv
              (LOGIN_WINDOW_MS - ((now : Int) - (t : Int))) 60000) }, s) ∧
      1 ≤ jsMathCeilDiv (LOGIN_WINDOW_MS - ((now : Int) - (t : Int))) 60000) ∧
    (∀ t : Time, u.lastFailedLogin = some t →
      LOGIN_WINDOW_MS ≤ (now : Int) - (t : Int) →
      loginUser bc secret expiresInMs now s email password =
        loginPasswordPhase bc secret expiresInMs now s u password) ∧
    (bc.compare password u.password = true →
      ¬(MAX_LOGIN_ATTEMPTS ≤ u.loginAttempts ∧
        (now : Int) - ((u.lastFailedLogin.getD now : Nat) : Int) < LOGIN_WINDOW_MS) →
      (loginUser bc secret expiresInMs now s email password).1.status = 200 ∧
      ∃ l1 x l2, s.users = l1 ++ x :: l2 ∧
        (∀ y ∈ l1, (y._id == u._id) = false) ∧ x._id = u._id ∧
        (loginUser bc secret expiresInMs now s email password).2.users =
          l1 ++ { x with loginAttempts := 0, lastLogin := some now } :: l2) := by
  refine ⟨?_, ?_, ?_⟩
  · intro t hlf h5 _ hwin
    constructor
    · simp only [loginUser, hfind, hlf, Option.getD_some]
      rw [if_pos ⟨h5, hwin⟩]
    · exact jsMathCeilDiv_pos (by omega) (by norm_num)
  · intro t hlf helapsed
    refine loginUser_not_locked bc secret expiresInMs now s email password u hfind ?_
    rw [hlf]
    simp only [Option.getD_some]
    omega
  · intro hcmp hnl
    have heq := loginUser_not_locked bc secret expiresInMs now s email password u hfind hnl
    have hmem : u ∈ s.users := List.mem_of_find?_eq_some hfind
    have hpu : (fun y : User => y._id == u._id) u = true := by simp
    obtain ⟨x, hx⟩ := find?_exists_of_mem (p := fun y : User => y._id == u._id) hmem hpu
    obtain ⟨l1, l2, hsplit, hpre, hpx, hupd⟩ := updateFirst_decomp
      (fun y : User => { y with loginAttempts := 0, lastLogin := some now }) hx
    rw [heq, loginPasswordPhase_match bc secret expiresInMs now s u password hcmp]
    refine ⟨rfl, l1, x, l2, hsplit, hpre, by simpa using hpx, ?_⟩
    simpa using hupd

/-- Witness for C1 at the concrete locked account: locked one minute after
the fifth failure, unlocked at exactly fifteen minutes, and a successful
login at that point answers 200. -/
theorem login_lockout_witness :
    (loginUser testBc "sec" 604800000 60000 stB "c@x.com" "Pw1234aA" =
      ({ authError 429 "ACCOUNT_LOCKED" with
          remainingMinutes := some (jsMathCeilDiv
            (LOGIN_WINDOW_MS - ((60000 : Int) - ((0 : Nat) : Int))) 60000) }, stB)) ∧
    (loginUser testBc "sec" 604800000 900000 stB "c@x.com" "Pw1234aA" =
      loginPasswordPhase testBc "sec" 604800000 900000 stB carol "Pw1234aA") ∧
    (loginUser testBc "sec" 604800000 900000 stB "c@x.com" "Pw1234aA").1.status = 200 := by
  have h := login_lockout_spec testBc "sec" 604800000 60000 stB "c@x.com"
    "Pw1234aA" carol (by decide)
  have h9 := login_lockout_spec testBc "sec" 604800000 900000 stB "c@x.com"
    "Pw1234aA" carol (by decide)
  exact ⟨(h.1 0 rfl (by decide) (by decide) (by decide)).1,
         h9.2.1 0 rfl (by decide),
         (h9.2.2 (by decide) (by decide)).1⟩

/-- C5 counterexample: a locked account submitted with a wrong password is
answered 429 ACCOUNT_LOCKED with the store untouched, not the claimed 401
INVALID_CREDENTIALS with an incremented counter. -/
theorem login_invalid_credentials_counterexample :
    testBc.compare "wrong" carol.password = false ∧
    stB.users.find? (fun x => x.email == "c@x.com") = some carol ∧
    (loginUser testBc "sec" 604800000 60000 stB "c@x.com" "wrong").1.status = 429 ∧
    (loginUser testBc "sec" 604800000 60000 stB "c@x.com" "wrong").1.code ≠
      some "INVALID_CREDENTIALS" ∧
    (loginUser testBc "sec" 604800000 60000 stB "c@x.com" "wrong").2 = stB := by
  decide

/-- C5 (amended): an unknown email answers 401 INVALID_CREDENTIALS with every
stored record unchanged; for a found account that is not currently locked
out, a password mismatch answers 401 INVALID_CREDENTIALS and rewrites the
stored record with the failed-login counter incremented by one and the
failure time stamped, while a password match rewrites it with the counter
reset and the failure timestamp untouched. -/
theorem login_invalid_credentials_spec (bc : Bcrypt) (secret : String)
    (expiresInMs now : Time) (s : AppState) (email password : String) :
    (s.users.find? (fun x => x.email == email) = none →
      loginUser bc secret expiresInMs now s email password =
        (authError 401 "INVALID_CREDENTIALS", s)) ∧
    (∀ u : User, s.users.find? (fun x => x.email == email) = some u →
      ¬(MAX_LOGIN_ATTEMPTS ≤ u.loginAttempts ∧
        (now : Int) - ((u.lastFailedLogin.getD now : Nat) : Int) < LOGIN_WINDOW_MS) →
      bc.compare password u.password = false →
      (loginUser bc secret expiresInMs now s email password).1 =
        authError 401 "INVALID_CREDENTIALS" ∧
      ∃ l1 x l2, s.users = l1 ++ x :: l2 ∧
        (∀ y ∈ l1, (y._id == u._id) = false) ∧ x._id = u._id ∧
        (loginUser bc secret expiresInMs now s email password).2.users =
          l1 ++ { x with loginAttempts := x.loginAttempts + 1,
                         lastFailedLogin := some now } :: l2) ∧
    (∀ u : User, s.users.find? (fun x => x.email == email) = some u →
      ¬(MAX_LOGIN_ATTEMPTS ≤ u.loginAttempts ∧
        (now : Int) - ((u.lastFailedLogin.getD now : Nat) : Int) < LOGIN_WINDOW_MS) →
      bc.compare password u.password = true →
      ∃ l1 x l2, s.users = l1 ++ x :: l2 ∧
        (∀ y ∈ l1, (y._id == u._id) = false) ∧ x._id = u._id ∧
        (loginUser bc secret expiresInMs now s email password).2.users =
          l1 ++ { x with loginAttempts := 0, lastLogin := some now } :: l2) := by
  refine ⟨?_, ?_, ?_⟩
  · intro hnone
    simp [loginUser, hnone]
  · intro u hfind hnl hcmp
    have heq := loginUser_not_locked bc secret expiresInMs now s email password u hfind hnl
    have hmem : u ∈ s.users := List.mem_of_find?_eq_some hfind
    have hpu : (fun y : User => y._id == u._id) u = true := by simp
    obtain ⟨x, hx⟩ := find?_exists_of_mem (p := fun y : User => y._id == u._id) hmem hpu
    obtain ⟨l1, l2, hsplit, hpre, hpx, hupd⟩ := updateFirst_decomp
      (fun y : User => { y with loginAttempts := y.loginAttempts + 1,
                                lastFailedLogin := some now }) hx
    rw [heq, loginPasswordPhase_mismatch bc secret expiresInMs now s u password hcmp]
    refine ⟨rfl, l1, x, l2, hsplit, hpre, by simpa using hpx, ?_⟩
    simpa using hupd
  · intro u hfind hnl hcmp
    have heq := loginUser_not_locked bc secret expiresInMs now s email password u hfind hnl
    have hmem : u ∈ s.users := List.mem_of_find?_eq_some hfind
    have hpu : (fun y : User => y._id == u._id) u = true := by simp
    obtain ⟨x, hx⟩ := find?_exists_of_mem (p := fun y : User => y._id == u._id) hmem hpu
    obtain ⟨l1, l2, hsplit, hpre, hpx, hupd⟩ := updateFirst_decomp
      (fun y : User => { y with loginAttempts := 0, lastLogin := some now }) hx
    rw [heq, loginPasswordPhase_match bc secret expiresInMs now s u password hcmp]
    refine ⟨l1, x, l2, hsplit, hpre, by simpa using hpx, ?_⟩
    simpa using hupd

/-- Witness for the amended C5: an unknown email leaves the store unchanged,
and a mismatch against the (no longer locked) concrete account increments its
counter. -/
theorem login_invalid_credentials_witness :
    (loginUser testBc "sec" 604800000 900000 stB "nobody@x.com" "wrong" =
      (authError 401 "INVALID_CREDENTIALS", stB)) ∧
    (loginUser testBc "sec" 604800000 900000 stB "c@x.com" "wrong").1 =
      authError 401 "INVALID_CREDENTIALS" ∧
    (∃ l1 x l2, stB.users = l1 ++ x :: l2 ∧
      (∀ y ∈ l1, (y._id == carol._id) = false) ∧ x._id = carol._id ∧
      (loginUser testBc "sec" 604800000 900000 stB "c@x.com" "wrong").2.users =
        l1 ++ { x with loginAttempts := x.loginAttempts + 1,
                       lastFailedLogin := some 900000 } :: l2) := by
  have h := login_invalid_credentials_spec testBc "sec" 604800000 900000 stB
    "nobody@x.com" "wrong"
  have h2 := login_invalid_credentials_spec testBc "sec" 604800000 900000 stB
    "c@x.com" "wrong"
  obtain ⟨hmis1, hmis2⟩ := h2.2.1 carol (by decide) (by decide) (by decide)
  exact ⟨h.1 (by decide), hmis1, hmis2⟩

/-- C3: a token generated for a user id with the same secret, verified while
unexpired, authenticates as exactly the stored active user with that id, and
the GET me route then reports that same id. -/
theorem token_roundtrip_spec (secret : String) (expiresInMs iat now : Time)
    (uid : UserId) (s : AppState) (u : User)
    (hexp : now < iat + expiresInMs)
    (hfind : s.users.find? (fun x => x._id == uid && x.isActive) = some u) :
    authenticateUser secret now s
        (some (generateToken secret expiresInMs iat uid)) = some u ∧
    u._id = uid ∧ u.isActive = true ∧
    (getMe u).status = 200 ∧ (getMe u).userId = some uid := by
  have hid := List.find?_some hfind
  simp only [Bool.and_eq_true, beq_iff_eq] at hid
  refine ⟨?_, hid.1, hid.2, rfl, ?_⟩
  · simp [authenticateUser, jwtVerify, generateToken, hexp, hfind]
  · simp [getMe, hid.1]

/-- Witness for C3: a fresh token for the stored user authenticates and the
me route echoes id 7. -/
theorem token_roundtrip_witness :
    authenticateUser "sec" 5 stB (some (generateToken "sec" 100 0 7)) = some carol ∧
    carol._id = 7 ∧ carol.isActive = true ∧
    (getMe carol).status = 200 ∧ (getMe carol).userId = some 7 :=
  token_roundtrip_spec "sec" 100 0 5 7 stB carol (by decide) (by decide)

theorem registerUser_conflict (bc : Bcrypt) (saltRounds : Nat)
    (secret : String) (expiresInMs now : Time) (s : AppState)
    (inp : RegisterBody) (w : User) (hw : w ∈ s.users)
    (hmatch : w.username = inp.username ∨ w.email = inp.email) :
    registerUser bc saltRounds secret expiresInMs now s inp =
      (authError 409 "USER_EXISTS", s) := by
  have hp : (fun u : User => u.username == inp.username ||
      u.email == inp.email) w = true := by
    simp only [Bool.or_eq_true, beq_iff_eq]
    exact hmatch
  obtain ⟨y, hy⟩ := find?_exists_of_mem
    (p := fun u : User => u.username == inp.username || u.email == inp.email)
    hw hp
  simp [registerUser, hy]

/-- C2: under a validated body, registration answers 409 USER_EXISTS exactly
when the requested username or email is already stored, and then inserts
nothing; otherwise it appends the new account with failed-login counter 0,
role user and the bcrypt hash (never the plaintext) as stored password, and
answers 201 with a signed token; a second conflicting registration after a
successful one is rejected 409 whatever its order. -/
theorem register_spec (bc : Bcrypt) (saltRounds : Nat) (secret : String)
    (expiresInMs now : Time) (s : AppState) (raw inp : RegisterBody)
    (hv : validateRegister raw = some inp) :
    (((registerRoute bc saltRounds secret expiresInMs now s raw).1.status = 409 ∧
      (registerRoute bc saltRounds secret expiresInMs now s raw).1.code =
        some "USER_EXISTS") ↔
      ∃ u ∈ s.users, u.username = inp.username ∨ u.email = inp.email) ∧
    ((∃ u ∈ s.users, u.username = inp.username ∨ u.email = inp.email) →
      registerRoute bc saltRounds secret expiresInMs now s raw =
        (authError 409 "USER_EXISTS", s)) ∧
    ((∀ u ∈ s.users, u.username ≠ inp.username ∧ u.email ≠ inp.email) →
      registerRoute bc saltRounds secret expiresInMs now s raw =
        ({ status := 201, success := true, code := none,
           remainingMinutes := none, userId := some s.nextUserId,
           username := some inp.username, email := some inp.email,
           role := none,
           token := some (generateToken secret expiresInMs now s.nextUserId) },
         { s with
            users := s.users ++
              [{ _id := s.nextUserId, username := inp.username,
                 email := inp.email,
                 password := bc.hash inp.password saltRounds, joinDate := now,
                 lastLogin := none, loginAttempts := 0,
                 lastFailedLogin := none, isActive := true, role := "user",
                 profile := [] }],
            nextUserId := s.nextUserId + 1 })) ∧
    (bc.hash inp.password saltRounds ≠ inp.password →
      ∀ w ∈ (registerRoute bc saltRounds secret expiresInMs now s raw).2.users,
        w ∉ s.users → w.password ≠ inp.password) ∧
    ((∀ u ∈ s.users, u.username ≠ inp.username ∧ u.email ≠ inp.email) →
      ∀ (now2 : Time) (raw2 inp2 : RegisterBody),
        validateRegister raw2 = some inp2 →
        (inp2.username = inp.username ∨ inp2.email = inp.email) →
        registerRoute bc saltRounds secret expiresInMs now2
            (registerRoute bc saltRounds secret expiresInMs now s raw).2 raw2 =
          (authError 409 "USER_EXISTS",
           (registerRoute bc saltRounds secret expiresInMs now s raw).2)) := by
  cases hf : s.users.find?
      (fun u => u.username == inp.username || u.email == inp.email) with
  | some w =>
    have hw : w ∈ s.users := List.mem_of_find?_eq_some hf
    have hpw := List.find?_some hf
    simp only [Bool.or_eq_true, beq_iff_eq] at hpw
    have hroute : registerRoute bc saltRounds secret expiresInMs now s raw =
        (authError 409 "USER_EXISTS", s) := by
      simp [registerRoute, hv, registerUser, hf]
    refine ⟨?_, fun _ => hroute, ?_, ?_, ?_⟩
    · rw [hroute]
      exact ⟨fun _ => ⟨w, hw, hpw⟩, fun _ => ⟨rfl, rfl⟩⟩
    · intro hfree
      exact absurd hpw (by
        have := hfree w hw
        tauto)
    · intro _ x hx hnx
      rw [hroute] at hx
      exact absurd hx hnx
    · intro hfree
      exact absurd hpw (by
        have := hfree w hw
        tauto)
  | none =>
    have hno : ∀ u ∈ s.users, u.username ≠ inp.username ∧ u.email ≠ inp.email := by
      intro u hu
      have := List.find?_eq_none.mp hf u hu
      simp only [Bool.or_eq_true, beq_iff_eq] at this
      tauto
    have hroute : registerRoute bc saltRounds secret expiresInMs now s raw =
        ({ status := 201, success := true, code := none,
           remainingMinutes := none, userId := some s.nextUserId,
           username := some inp.username, email := some inp.email,
           role := none,
           token := some (generateToken secret expiresInMs now s.nextUserId) },
         { s with
            users := s.users ++
              [{ _id := s.nextUserId, username := inp.username,
                 email := inp.email,
                 password := bc.hash inp.password saltRounds, joinDate := now,
                 lastLogin := none, loginAttempts := 0,
                 lastFailedLogin := none, isActive := true, role := "user",
                 profile := [] }],
            nextUserId := s.nextUserId + 1 }) := by
      simp [registerRoute, hv, registerUser, hf]
    refine ⟨?_, ?_, fun _ => hroute, ?_, ?_⟩
    · rw [hroute]
      constructor
      · rintro ⟨h201, -⟩
        simp at h201
      · rintro ⟨u, hu, hmatch⟩
        exact absurd hmatch (by
          have := hno u hu
          tauto)
    · rintro ⟨u, hu, hmatch⟩
      exact absurd hmatch (by
        have := hno u hu
        tauto)
    · intro hne x hx hnx
      rw [hroute] at hx
      rcases List.mem_append.mp hx with hmem | hmem
      · exact absurd hmem hnx
      · rcases List.mem_singleton.mp hmem with rfl
        simpa using hne
    · intro _ now2 raw2 inp2 hv2 hmatch
      rw [hroute]
      simp only [registerRoute, hv2]
      refine registerUser_conflict bc saltRounds secret expiresInMs now2 _ inp2 _
        (List.mem_append.mpr (Or.inr (List.mem_singleton.mpr rfl))) ?_
      rcases hmatch with h | h
      · exact Or.inl (by simp [h])
      · exact Or.inr (by simp [h])

/-- Witness for C2: registering the example user in the empty store answers
201, and a second registration reusing the same email answers 409. -/
theorem register_witness :
    (registerRoute testBc 12 "sec" 604800000 1000 emptyState rawAlice).1.status = 201 ∧
    (registerRoute testBc 12 "sec" 604800000 2000
        (registerRoute testBc 12 "sec" 604800000 1000 emptyState rawAlice).2
        rawBob).1.status = 409 := by
  have h := register_spec testBc 12 "sec" 604800000 1000 emptyState rawAlice
    rawAlice (by decide)
  constructor
  · rw [h.2.2.1 (by decide)]
  · rw [h.2.2.2.2 (by decide) 2000 rawBob rawBob (by decide) (by decide)]
    rfl

/-- C7 counterexample: the password Abcdef1# has at least 8 characters and an
uppercase letter, a lowercase letter and a digit, and the other fields are
valid, yet registration answers 400 VALIDATION_ERROR because the hash sign is
outside the character class the password regular expression allows. -/
theorem register_password_counterexample :
    (8 ≤ "Abcdef1#".length ∧
     "Abcdef1#".toList.any Char.isUpper = true ∧
     "Abcdef1#".toList.any Char.isLower = true ∧
     "Abcdef1#".toList.any Char.isDigit = true ∧
     validUsername "alice123" = true ∧ isEmailModel "a@b.com" = true) ∧
    registerRoute testBc 12 "sec" 604800000 1000 emptyState
        { username := "alice123", email := "a@b.com", password := "Abcdef1#" } =
      (authError 400 "VALIDATION_ERROR", emptyState) := by
  decide

/-- C7 (amended): registration accepts every password of at least 8
characters drawn from letters, digits and the seven permitted special
characters that contains an uppercase letter, a lowercase letter and a digit
(together with a valid, unconflicting username and email), and rejects with
400 VALIDATION_ERROR any request violating the schema, such as a username
shorter than 3 characters. -/
theorem register_validation_spec (bc : Bcrypt) (saltRounds : Nat)
    (secret : String) (expiresInMs now : Time) (s : AppState)
    (raw : RegisterBody) :
    (validateRegister raw = none →
      registerRoute bc saltRounds secret expiresInMs now s raw =
        (authError 400 "VALIDATION_ERROR", s)) ∧
    ((jsTrim raw.username).length < 3 → validateRegister raw = none) ∧
    (8 ≤ raw.password.length →
     raw.password.toList.any Char.isLower = true →
     raw.password.toList.any Char.isUpper = true →
     raw.password.toList.any Char.isDigit = true →
     raw.password.toList.all passwordAllowedChar = true →
     validUsername (jsTrim raw.username) = true →
     isEmailModel (jsTrim raw.email) = true →
     (∀ u ∈ s.users, u.username ≠ jsTrim raw.username ∧
        u.email ≠ normalizeEmailModel (jsTrim raw.email)) →
     (registerRoute bc saltRounds secret expiresInMs now s raw).1.status = 201 ∧
     ((registerRoute bc saltRounds secret expiresInMs now s raw).1.token).isSome
       = true) := by
  refine ⟨?_, ?_, ?_⟩
  · intro hn
    simp [registerRoute, hn]
  · intro hlen
    have hu : validUsername (jsTrim raw.username) = false := by
      simp only [validUsername, Bool.and_eq_false_iff]
      left
      left
      simpa using Nat.not_le.mpr hlen
    simp [validateRegister, hu]
  · intro h8 hlow hup hdig hall hun hem hfree
    have hpw : validPassword raw.password = true := by
      simp only [validPassword, Bool.and_eq_true]
      refine ⟨⟨⟨⟨by simpa using h8, hlow⟩, hup⟩, hdig⟩, hall⟩
    have hv : validateRegister raw =
        some { username := jsTrim raw.username,
               email := normalizeEmailModel (jsTrim raw.email),
               password := raw.password } := by
      simp [validateRegister, hun, hem, hpw]
    have hf : s.users.find? (fun u =>
        u.username == jsTrim raw.username ||
        u.email == normalizeEmailModel (jsTrim raw.email)) = none := by
      rw [List.find?_eq_none]
      intro u hu
      have := hfree u hu
      simp only [Bool.or_eq_true, beq_iff_eq, not_or]
      tauto
    simp [registerRoute, hv, registerUser, hf]

/-- Witness for the amended C7: the example password Abcdef12 is accepted
with a token, and the too-short username ab is rejected 400. -/
theorem register_validation_witness :
    (registerRoute testBc 12 "sec" 604800000 1000 emptyState rawAlice).1.status = 201 ∧
    ((registerRoute testBc 12 "sec" 604800000 1000 emptyState
        rawAlice).1.token).isSome = true ∧
    validateRegister
      { username := "ab", email := "a@b.com", password := "Abcdef12" } = none ∧
    registerRoute testBc 12 "sec" 604800000 1000 emptyState
        { username := "ab", email := "a@b.com", password := "Abcdef12" } =
      (authError 400 "VALIDATION_ERROR", emptyState) := by
  have h1 := (register_validation_spec testBc 12 "sec" 604800000 1000
      emptyState rawAlice).2.2 (by decide) (by decide) (by decide) (by decide)
      (by decide) (by decide) (by decide) (by decide)
  have h2 := (register_validation_spec testBc 12 "sec" 604800000 1000
      emptyState
      { username := "ab", email := "a@b.com", password := "Abcdef12" }).2.1
      (by decide)
  have h3 := (register_validation_spec testBc 12 "sec" 604800000 1000
      emptyState
      { username := "ab", email := "a@b.com", password := "Abcdef12" }).1 h2
  exact ⟨h1.1, h1.2, h2, h3⟩

/-- C4: whenever no stored listing has both the requested id and the caller
as owner — the id is absent or the listing belongs to someone else — the
update and the delete routes both answer the one fixed 404 NOT_FOUND body
(never 403), so the two cases are indistinguishable, and the stores are left
exactly as they were. -/
theorem book_notFound_spec (s : AppState) (callerId : UserId)
    (bookId : BookId) (patch : Book → Book) (cloudOk : Bool)
    (h : ∀ b ∈ s.books, ¬(b._id = bookId ∧ b.userId = callerId)) :
    updateBook s callerId bookId patch = (bookNotFound, s) ∧
    deleteBook s callerId bookId cloudOk = (bookNotFound, s, []) ∧
    bookNotFound.status = 404 ∧ bookNotFound.code = some "NOT_FOUND" ∧
    bookNotFound.status ≠ 403 := by
  have hp : ∀ b ∈ s.books,
      (fun b : Book => b._id == bookId && b.userId == callerId) b = false := by
    intro b hb
    have hnb := h b hb
    simp only [Bool.and_eq_false_iff, beq_eq_false_iff_ne]
    tauto
  refine ⟨?_, ?_, rfl, rfl, by decide⟩
  · simp [updateBook, findOneAndUpdate_eq_none _ _ _ hp]
  · have hf : s.books.find?
        (fun b : Book => b._id == bookId && b.userId == callerId) = none := by
      rw [List.find?_eq_none]
      intro b hb
      simp [hp b hb]
    simp [deleteBook, hf]

/-- Witness for C4: a request against the stored listing by a non-owner is
answered 404 NOT_FOUND with the stores untouched. -/
theorem book_notFound_witness :
    updateBook stB 9 1 id = (bookNotFound, stB) ∧
    deleteBook stB 9 1 true = (bookNotFound, stB, []) ∧
    bookNotFound.status = 404 ∧ bookNotFound.code = some "NOT_FOUND" ∧
    bookNotFound.status ≠ 403 :=
  book_notFound_spec stB 9 1 id true (by decide)

/-- C6: the like route, which carries no caller at all, rewrites exactly the
first stored listing with the requested id to the same listing with its like
counter one higher — every other field and every other listing unchanged —
and answers 200; when no listing has the id it answers 404 with the store
unchanged. -/
theorem like_spec (s : AppState) (bookId : BookId) :
    (∀ l1 b l2, s.books = l1 ++ b :: l2 → (∀ x ∈ l1, x._id ≠ bookId) →
      b._id = bookId →
      likeBook s bookId =
        ({ status := 200, success := true, code := none,
           data := some { b with likes := b.likes + 1 } },
         { s with books := l1 ++ { b with likes := b.likes + 1 } :: l2 })) ∧
    ((∀ x ∈ s.books, x._id ≠ bookId) →
      likeBook s bookId = (bookNotFound, s)) := by
  constructor
  · intro l1 b l2 hs h1 hb
    have hp : ∀ x ∈ l1, (fun x : Book => x._id == bookId) x = false :=
      fun x hx => beq_false_of_ne (h1 x hx)
    have hpb : (fun x : Book => x._id == bookId) b = true := by simp [hb]
    simp [likeBook, hs, findOneAndUpdate_append _ _ _ _ _ hp hpb]
  · intro hno
    have hp : ∀ x ∈ s.books, (fun x : Book => x._id == bookId) x = false :=
      fun x hx => beq_false_of_ne (hno x hx)
    simp [likeBook, findOneAndUpdate_eq_none _ _ _ hp]

/-- Witness for C6: liking the stored listing bumps its counter from 0 to 1
and answers 200. -/
theorem like_witness :
    likeBook stB 1 =
      ({ status := 200, success := true, code := none,
         data := some { book1 with likes := book1.likes + 1 } },
       { stB with books := [] ++ { book1 with likes := book1.likes + 1 } :: [] }) :=
  (like_spec stB 1).1 [] book1 [] rfl (by decide) rfl

/-- C8: when the caller owns the listing, the delete route answers 200 and
removes the record from the books store for both outcomes of the remote
image deletion: the response and the resulting store do not depend on
whether the image-host call succeeds. -/
theorem deleteBook_cloudinary_spec (s : AppState) (callerId : UserId)
    (bookId : BookId) (book : Book)
    (h : s.books.find?
      (fun b => b._id == bookId && b.userId == callerId) = some book) :
    ∃ l1 l2, s.books = l1 ++ book :: l2 ∧
      ∀ cloudOk,
        (deleteBook s callerId bookId cloudOk).1 =
          { status := 200, success := true, code := none, data := none } ∧
        (deleteBook s callerId bookId cloudOk).2.1 =
          { s with books := l1 ++ l2 } := by
  obtain ⟨l1, l2, hs, hpre, hpb⟩ := find?_decomp h
  refine ⟨l1, l2, hs, fun cloudOk => ?_⟩
  have hdel : deleteFirst
      (fun b : Book => b._id == bookId && b.userId == callerId) s.books =
      (1, l1 ++ l2) := by
    rw [hs]
    exact deleteFirst_append _ _ _ _ hpre hpb
  constructor
  · simp [deleteBook, h, hdel]
  · simp [deleteBook, h, hdel]

/-- Witness for C8: the owner deleting her listing gets 200 and an emptied
books store even when the image-host call fails. -/
theorem deleteBook_cloudinary_witness :
    (deleteBook stB 7 1 false).1 =
      { status := 200, success := true, code := none, data := none } ∧
    (deleteBook stB 7 1 false).2.1 = (deleteBook stB 7 1 true).2.1 := by
  obtain ⟨l1, l2, hs, hok⟩ := deleteBook_cloudinary_spec stB 7 1 book1 (by decide)
  exact ⟨(hok false).1, ((hok false).2).trans ((hok true).2).symm⟩

/-- C10: deleting an account removes only that user document: the books
store is untouched, so every listing the user owned is still there and still
appears in the list-all result, now with a dangling owner id. -/
theorem deleteMe_frame_spec (s : AppState) (u : User) :
    (deleteMe s u).2.books = s.books ∧
    (deleteMe s u).2.users =
      (deleteFirst (fun x => x._id == u._id) s.users).2 ∧
    (∀ b ∈ s.books, b.userId = u._id →
      b ∈ listAllBooks (deleteMe s u).2) := by
  have hb : (deleteMe s u).2.books = s.books := by
    simp only [deleteMe]
    split <;> rfl
  have hu : (deleteMe s u).2.users =
      (deleteFirst (fun x => x._id == u._id) s.users).2 := by
    simp only [deleteMe]
    split <;> rfl
  refine ⟨hb, hu, fun b hbmem _ => ?_⟩
  have hmem : b ∈ (deleteMe s u).2.books := hb ▸ hbmem
  simpa [listAllBooks, (List.mergeSort_perm _ _).mem_iff] using hmem

/-- Witness for C10: after the stored owner deletes her account, her listing
is still in the books store and in the list-all result. -/
theorem deleteMe_frame_witness :
    (deleteMe stB carol).2.books = stB.books ∧
    book1 ∈ listAllBooks (deleteMe stB carol).2 := by
  obtain ⟨h1, _, h3⟩ := deleteMe_frame_spec stB carol
  exact ⟨h1, h3 book1 (by decide) (by decide)⟩

end BookSwap
